import Mathlib

/-!
Verification development for the pomelo-udp-webrtc client transport library.

Each TypeScript class relevant to the checked properties is shallowly
embedded as a Lean structure with pure state-passing operations:

* `Payload` (src/unnamed/part_003) — little-endian binary cursor;
* `Pool` (src/unnamed/part_000) — bounded free-list;
* `SampleSet` (src/src/utils/sampling.ts) — sliding mean/variance window;
* `RTTCalculator` (src/unnamed/part_001) — ping-timestamp ring;
* `Clock` (src/unnamed/part_002) — adaptive clock-offset estimator;
* `SignalState` (src/src/utils/signal.ts) — observer list;
* token decoding (src/src/socket.ts) and the session event machine
  (src/src/session.ts).

JavaScript `bigint` values are modelled as `Int` (or `Nat` where the source
only ever holds non-negative values), `number` array indices as `Int` where
negative indices matter, and JS exceptions as `Except String`.
-/

/-- Error message raised by writes past the capacity (source constant
`BUFFER_OVERFLOW_ERR_MSG`). -/
def BUFFER_OVERFLOW_ERR_MSG : String := "BufferOverflow"

/-- Error message raised by reads past the capacity (source constant
`BUFFER_UNDERFLOW_ERR_MSG`). -/
def BUFFER_UNDERFLOW_ERR_MSG : String := "BufferUnderflow"

/-- State of a `Payload` binary cursor: the byte buffer (each element a byte
value `< 256`) and the current position.  The source also stores a
`capacity` field, but every constructor and `prepare` call sets it to
`data.byteLength`, so the model uses `data.length` directly. -/
structure Payload where
  data : List Nat
  position : Nat
  deriving DecidableEq

/-- Capacity of a payload (`this.capacity`, always `data.byteLength`). -/
def Payload.capacity (p : Payload) : Nat := p.data.length

/-- Model of `Payload.readUint8`: bounds check, then read one byte and
advance the position. -/
def Payload.readUint8 (p : Payload) : Except String (Nat × Payload) :=
  if p.position + 1 > p.capacity then .error BUFFER_UNDERFLOW_ERR_MSG
  else .ok (p.data.getD p.position 0, { p with position := p.position + 1 })

/-- Model of `Payload.writeUint8`: bounds check, then store the low byte of
the value (`DataView.setUint8` truncates modulo 256) and advance. -/
def Payload.writeUint8 (p : Payload) (value : Nat) : Except String Payload :=
  if p.position + 1 > p.capacity then .error BUFFER_OVERFLOW_ERR_MSG
  else .ok { data := p.data.set p.position (value % 256),
             position := p.position + 1 }

/-- Model of `Payload.readUint16` (little-endian). -/
def Payload.readUint16 (p : Payload) : Except String (Nat × Payload) :=
  if p.position + 2 > p.capacity then .error BUFFER_UNDERFLOW_ERR_MSG
  else .ok (p.data.getD p.position 0 + p.data.getD (p.position + 1) 0 * 256,
            { p with position := p.position + 2 })

/-- Model of `Payload.readUint32` (little-endian). -/
def Payload.readUint32 (p : Payload) : Except String (Nat × Payload) :=
  if p.position + 4 > p.capacity then .error BUFFER_UNDERFLOW_ERR_MSG
  else .ok (p.data.getD p.position 0
              + p.data.getD (p.position + 1) 0 * 256
              + p.data.getD (p.position + 2) 0 * 65536
              + p.data.getD (p.position + 3) 0 * 16777216,
            { p with position := p.position + 4 })

/-- Model of `Payload.readUint64` (little-endian). -/
def Payload.readUint64 (p : Payload) : Except String (Nat × Payload) :=
  if p.position + 8 > p.capacity then .error BUFFER_UNDERFLOW_ERR_MSG
  else
    let b := fun i => p.data.getD (p.position + i) 0
    .ok (b 0 + b 1 * 2 ^ 8 + b 2 * 2 ^ 16 + b 3 * 2 ^ 24 + b 4 * 2 ^ 32
           + b 5 * 2 ^ 40 + b 6 * 2 ^ 48 + b 7 * 2 ^ 56,
         { p with position := p.position + 8 })

/-- Model of `Payload.readInt32` (little-endian, two's complement). -/
def Payload.readInt32 (p : Payload) : Except String (Int × Payload) :=
  if p.position + 4 > p.capacity then .error BUFFER_UNDERFLOW_ERR_MSG
  else
    let u := p.data.getD p.position 0
              + p.data.getD (p.position + 1) 0 * 256
              + p.data.getD (p.position + 2) 0 * 65536
              + p.data.getD (p.position + 3) 0 * 16777216
    .ok (if u < 2 ^ 31 then (u : Int) else (u : Int) - 2 ^ 32,
         { p with position := p.position + 4 })

/-- Model of `Payload.read`: bounds check, then return the sub-buffer of
the given length and advance past it. -/
def Payload.read (p : Payload) (length : Nat) : Except String (List Nat × Payload) :=
  if p.position + length > p.capacity then .error BUFFER_UNDERFLOW_ERR_MSG
  else .ok ((p.data.drop p.position).take length,
            { p with position := p.position + length })

/-- Model of `Payload.calcPackedUint64Bytes`, with the exact mask constants
of the source (note that the innermost mask on the high branch is
`0xFF000000000000`, i.e. bits 48..55, as written in the source). -/
def Payload.calcPackedUint64Bytes (value : Nat) : Nat :=
  if value &&& 0xFFFFFFFF00000000 ≠ 0 then
    if value &&& 0xFFFF000000000000 ≠ 0 then
      if value &&& 0xFF000000000000 ≠ 0 then 8 else 7
    else
      if value &&& 0xFFFFFF0000000000 ≠ 0 then 6 else 5
  else
    if value &&& 0xFFFF0000 ≠ 0 then
      if value &&& 0xFF000000 ≠ 0 then 4 else 3
    else
      if value &&& 0xFF00 ≠ 0 then 2 else 1

/-- Loop body of `Payload.readPackedUint64`: read `n` more bytes, or-ing
byte `i` shifted by `i * 8` into the accumulator. -/
def Payload.readPackedLoop : Nat → Nat → Nat → Payload → Except String (Nat × Payload)
  | 0, _, value, p => .ok (value, p)
  | n + 1, i, value, p =>
    match p.readUint8 with
    | .error e => .error e
    | .ok (b, p1) => Payload.readPackedLoop n (i + 1) (value ||| (b <<< (i * 8))) p1

/-- Model of `Payload.readPackedUint64 (bytes)`: bounds check, then read
`bytes` bytes little-endian. -/
def Payload.readPackedUint64 (p : Payload) (bytes : Nat) : Except String (Nat × Payload) :=
  if p.position + bytes > p.capacity then .error BUFFER_UNDERFLOW_ERR_MSG
  else Payload.readPackedLoop bytes 0 0 p

/-- Loop body of `Payload.writePackedUint64`: write `n` more bytes, each
time emitting `value & 0xFF` and shifting `value` right by 8. -/
def Payload.writePackedLoop : Nat → Nat → Payload → Except String Payload
  | 0, _, p => .ok p
  | n + 1, value, p =>
    match p.writeUint8 (value &&& 0xFF) with
    | .error e => .error e
    | .ok p1 => Payload.writePackedLoop n (value >>> 8) p1

/-- Model of `Payload.writePackedUint64 (bytes, value)`.  The source's
bounds check raises the UNDERFLOW message here (a noted typo), which the
model preserves. -/
def Payload.writePackedUint64 (p : Payload) (bytes : Nat) (value : Nat) : Except String Payload :=
  if p.position + bytes > p.capacity then .error BUFFER_UNDERFLOW_ERR_MSG
  else Payload.writePackedLoop bytes value p

/-- Model of `decodeString` (src/src/utils/string.ts): each byte becomes
the character with that code (`String.fromCharCode` applied per byte). -/
def decodeString (data : List Nat) : String :=
  String.mk (data.map Char.ofNat)

/-- Helper for `Payload.readString`: index of the first zero byte in the
list, offset by the given starting index (`-1` becomes `none`). -/
def findZeroAux : List Nat → Nat → Option Nat
  | [], _ => none
  | b :: rest, i => if b = 0 then some i else findZeroAux rest (i + 1)

/-- Model of the zero-scan loop of `Payload.readString`: smallest absolute
index `i ≥ position` with `data[i] = 0`. -/
def Payload.findZero (p : Payload) : Option Nat :=
  findZeroAux (p.data.drop p.position) p.position

/-- Model of `Payload.readString`.  On a terminator at absolute index
`zeroIndex` it returns the decoded bytes `[position, zeroIndex)` and runs
`position += zeroIndex + 1`, exactly as the source does (the source adds
the absolute index rather than assigning it). -/
def Payload.readString (p : Payload) : String × Payload :=
  match p.findZero with
  | none => ("", p)
  | some zeroIndex =>
    let data := (p.data.drop p.position).take (zeroIndex - p.position)
    (decodeString data, { p with position := p.position + (zeroIndex + 1) })

/-- Round trip of the packed u64 codec at the calculated byte count: write
`v` into a fresh payload of `calcPackedUint64Bytes v` bytes, then read it
back from position 0. -/
def packedRoundTrip (v : Nat) : Except String Nat :=
  let n := Payload.calcPackedUint64Bytes v
  match (Payload.mk (List.replicate n 0) 0).writePackedUint64 n v with
  | .error e => .error e
  | .ok p =>
    match (Payload.mk p.data 0).readPackedUint64 n with
    | .error e => .error e
    | .ok (value, _) => .ok value

/-- Modelled from the spec: `POMELO_ADDRESS_IPV4` from the repository's
constants module (not under src/); §6 gives the IPv4 type tag value 1. -/
def POMELO_ADDRESS_IPV4 : Nat := 1

/-- Modelled from the spec: `POMELO_ADDRESS_IPV6` from the repository's
constants module (not under src/); §6 gives the IPv6 type tag value 2. -/
def POMELO_ADDRESS_IPV6 : Nat := 2

/-- Modelled from the spec: `POMELO_CONNECT_TOKEN_NONCE_BYTES` from the
repository's constants module (not under src/); §6 gives the nonce size 24. -/
def POMELO_CONNECT_TOKEN_NONCE_BYTES : Nat := 24

/-- Modelled from the spec: `POMELO_ENCRYPTED_PRIVATE_CONNECT_TOKEN_BYTES`
from the repository's constants module (not under src/); §6 gives the
encrypted private blob size 1024. -/
def POMELO_ENCRYPTED_PRIVATE_CONNECT_TOKEN_BYTES : Nat := 1024

/-- Modelled from the spec: `POMELO_KEY_BYTES` from the repository's
constants module (not under src/); §6 gives the key size 32. -/
def POMELO_KEY_BYTES : Nat := 32

/-- Server address decoded from a connect token (`TokenServerAddress`). -/
structure TokenServerAddress where
  host : String
  port : Nat
  deriving DecidableEq

/-- Public portion of a connect token (`TokenPublicInfo`). -/
structure TokenPublicInfo where
  versionInfo : String
  protocolID : Nat
  createTimestamp : Nat
  expireTimestamp : Nat
  connectTokenNonce : List Nat
  timeout : Int
  encryptedPrivateConnectTokenData : List Nat
  serverAddresses : List TokenServerAddress
  clientToServerKey : List Nat
  serverToClientKey : List Nat

/-- Model of `decodeServerAddressIPv4`: four octets joined with dots as
decimal strings, then a little-endian u16 port. -/
def decodeServerAddressIPv4 (payload : Payload) : Except String (TokenServerAddress × Payload) := do
  let (a, payload) ← payload.readUint8
  let (b, payload) ← payload.readUint8
  let (c, payload) ← payload.readUint8
  let (d, payload) ← payload.readUint8
  let (port, payload) ← payload.readUint16
  .ok (⟨String.intercalate "." [toString a, toString b, toString c, toString d], port⟩, payload)

/-- Model of JavaScript `e.toString(16)` for a non-negative integer:
lowercase hexadecimal digits. -/
def jsToStringHex (e : Nat) : String :=
  String.mk (Nat.toDigits 16 e)

/-- Model of JavaScript `s.padStart(2, "0")`. -/
def padStartTwoZero (s : String) : String :=
  if s.length < 2 then String.mk (List.replicate (2 - s.length) '0') ++ s else s

/-- Model of `decodeServerAddressIPv6`: eight u16 groups rendered as
`toString(16).padStart(2, "0")` joined with colons, then the port. -/
def decodeServerAddressIPv6 (payload : Payload) : Except String (TokenServerAddress × Payload) := do
  let (a, payload) ← payload.readUint16
  let (b, payload) ← payload.readUint16
  let (c, payload) ← payload.readUint16
  let (d, payload) ← payload.readUint16
  let (e, payload) ← payload.readUint16
  let (f, payload) ← payload.readUint16
  let (g, payload) ← payload.readUint16
  let (h, payload) ← payload.readUint16
  let (port, payload) ← payload.readUint16
  let groups := [a, b, c, d, e, f, g, h].map (fun v => padStartTwoZero (jsToStringHex v))
  .ok (⟨String.intercalate ":" groups, port⟩, payload)

/-- Loop of `decodeServerAddresses`: decode `n` more entries, appending
IPv4/IPv6 addresses and silently skipping unknown type tags. -/
def decodeServerAddressesLoop : Nat → Payload → List TokenServerAddress → Except String (List TokenServerAddress × Payload)
  | 0, payload, acc => .ok (acc, payload)
  | n + 1, payload, acc => do
    let (t, payload) ← payload.readUint8
    if t = POMELO_ADDRESS_IPV4 then
      let (addr, payload) ← decodeServerAddressIPv4 payload
      decodeServerAddressesLoop n payload (acc ++ [addr])
    else if t = POMELO_ADDRESS_IPV6 then
      let (addr, payload) ← decodeServerAddressIPv6 payload
      decodeServerAddressesLoop n payload (acc ++ [addr])
    else
      decodeServerAddressesLoop n payload acc

/-- Model of `decodeServerAddresses`: u32 count then that many entries. -/
def decodeServerAddresses (payload : Payload) : Except String (List TokenServerAddress × Payload) := do
  let (naddresses, payload) ← payload.readUint32
  decodeServerAddressesLoop naddresses payload []

/-- Model of `decodeTokenPublic` (src/src/socket.ts): parse the public
token fields strictly in order, starting from a payload freshly prepared
over the token bytes (position 0). -/
def decodeTokenPublic (connectToken : List Nat) : Except String TokenPublicInfo := do
  let payload := Payload.mk connectToken 0
  let (versionInfo, payload) := payload.readString
  let (protocolID, payload) ← payload.readUint64
  let (createTimestamp, payload) ← payload.readUint64
  let (expireTimestamp, payload) ← payload.readUint64
  let (connectTokenNonce, payload) ← payload.read POMELO_CONNECT_TOKEN_NONCE_BYTES
  let (encryptedPrivateConnectTokenData, payload) ←
    payload.read POMELO_ENCRYPTED_PRIVATE_CONNECT_TOKEN_BYTES
  let (timeout, payload) ← payload.readInt32
  let (serverAddresses, payload) ← decodeServerAddresses payload
  let (clientToServerKey, payload) ← payload.read POMELO_KEY_BYTES
  let (serverToClientKey, _) ← payload.read POMELO_KEY_BYTES
  .ok { versionInfo, protocolID, createTimestamp, expireTimestamp,
        connectTokenNonce, timeout, encryptedPrivateConnectTokenData,
        serverAddresses, clientToServerKey, serverToClientKey }

/-- Byte content of the version string "netcode 1.02" followed by the 0x00
terminator. -/
def versionNetcodeBytes : List Nat :=
  [110, 101, 116, 99, 111, 100, 101, 32, 49, 46, 48, 50, 0]


/-- Suffix of the sample token after both keys: 884 bytes of padding. -/
def tokAfterKeys : List Nat := List.replicate 884 0

/-- Suffix of the sample token after the client-to-server key. -/
def tokAfterKey1 : List Nat := List.replicate 32 0 ++ tokAfterKeys

/-- Suffix of the sample token after the single address entry. -/
def tokAfterAddr : List Nat := List.replicate 32 0 ++ tokAfterKey1

/-- Suffix of the sample token after the address count: one IPv4 entry
(type tag 1, 127.0.0.1, port 8889 = 0x22B9 little-endian). -/
def tokAfterNumAddr : List Nat := 1 :: 127 :: 0 :: 0 :: 1 :: 185 :: 34 :: tokAfterAddr

/-- Suffix of the sample token after the timeout field: address count 1. -/
def tokAfterTimeout : List Nat := 1 :: 0 :: 0 :: 0 :: tokAfterNumAddr

/-- Suffix of the sample token after the private blob: timeout 10. -/
def tokAfterPrivate : List Nat := 10 :: 0 :: 0 :: 0 :: tokAfterTimeout

/-- Suffix of the sample token after the nonce: 1024-byte private blob. -/
def tokAfterNonce : List Nat := List.replicate 1024 0 ++ tokAfterPrivate

/-- Suffix of the sample token after the expire timestamp: 24-byte nonce. -/
def tokAfterExpire : List Nat := List.replicate 24 0 ++ tokAfterNonce

/-- Suffix of the sample token after the create timestamp. -/
def tokAfterCreate : List Nat := List.replicate 8 0 ++ tokAfterExpire

/-- Suffix of the sample token after the protocol id. -/
def tokAfterProtocol : List Nat := List.replicate 8 0 ++ tokAfterCreate

/-- Suffix of the sample token after the version string: protocol id 1. -/
def tokAfterVersion : List Nat := 1 :: 0 :: 0 :: 0 :: 0 :: 0 :: 0 :: 0 :: tokAfterProtocol

/-- Concrete 2048-byte connect token: version "netcode 1.02\x00",
protocol id 1, create/expire timestamps 0, zero nonce and private blob,
timeout 10, one IPv4 address entry 127.0.0.1:8889, zero keys, zero
padding up to 2048 bytes. -/
def sampleConnectToken : List Nat := versionNetcodeBytes ++ tokAfterVersion

theorem sampleConnectToken_length : sampleConnectToken.length = 2048 := by
  simp only [sampleConnectToken, versionNetcodeBytes, tokAfterVersion, tokAfterProtocol,
        tokAfterCreate, tokAfterExpire, tokAfterNonce, tokAfterPrivate, tokAfterTimeout,
        tokAfterNumAddr, tokAfterAddr, tokAfterKey1, tokAfterKeys,
        List.length_append, List.length_replicate, List.length_cons, List.length_nil]

theorem readString_version (rest : List Nat) :
    Payload.readString (Payload.mk (versionNetcodeBytes ++ rest) 0)
      = ("netcode 1.02", Payload.mk (versionNetcodeBytes ++ rest) 13) := by
  have hz : findZeroAux (((versionNetcodeBytes ++ rest)).drop 0) 0 = some 12 := by
    simp [versionNetcodeBytes, findZeroAux]
  have ht : (((versionNetcodeBytes ++ rest)).drop 0).take (12 - 0)
      = [110, 101, 116, 99, 111, 100, 101, 32, 49, 46, 48, 50] := by
    rw [List.drop_zero,
        show versionNetcodeBytes
          = [110, 101, 116, 99, 111, 100, 101, 32, 49, 46, 48, 50] ++ [0] from rfl,
        List.append_assoc,
        show (12 - 0)
          = ([110, 101, 116, 99, 111, 100, 101, 32, 49, 46, 48, 50] : List Nat).length from rfl,
        List.take_left]
  unfold Payload.readString Payload.findZero
  rw [hz]
  dsimp only
  rw [ht]
  norm_num
  decide

theorem list_drop_chunk {data : List Nat} {pos n : Nat} {b rest : List Nat}
    (hb : b.length = n) (h : data.drop pos = b ++ rest) :
    data.drop (pos + n) = rest := by
  have h2 : (data.drop pos).drop n = data.drop (pos + n) := List.drop_drop n pos data
  rw [← h2, h, ← hb, List.drop_left]

theorem payload_getD_drop (data : List Nat) (pos i d : Nat) :
    data.getD (pos + i) d = (data.drop pos).getD i d := by
  simp [List.getD, List.getElem?_drop]

theorem payload_getD_drop_zero (data : List Nat) (pos d : Nat) :
    data.getD pos d = (data.drop pos).getD 0 d := by
  have h := payload_getD_drop data pos 0 d
  simp only [Nat.add_zero] at h
  exact h

theorem payload_length_ge {p : Payload} {b r : List Nat} {n : Nat}
    (hb : b.length = n) (h : p.data.drop p.position = b ++ r) (hn : 0 < n) :
    p.position + n ≤ p.data.length := by
  have h1 : (p.data.drop p.position).length = p.data.length - p.position :=
    List.length_drop p.position p.data
  rw [h, List.length_append, hb] at h1
  omega

theorem readUint8_drop {p : Payload} {b : Nat} {rest : List Nat}
    (h : p.data.drop p.position = b :: rest) :
    p.readUint8 = .ok (b, { p with position := p.position + 1 }) := by
  have hle : p.position + 1 ≤ p.data.length :=
    payload_length_ge (b := [b]) (r := rest) rfl (by simpa using h) (by omega)
  have hv : p.data.getD p.position 0 = b := by
    rw [payload_getD_drop_zero, h]; rfl
  unfold Payload.readUint8 Payload.capacity
  rw [if_neg (by omega), hv]

theorem readUint16_drop {p : Payload} {b0 b1 : Nat} {rest : List Nat}
    (h : p.data.drop p.position = b0 :: b1 :: rest) :
    p.readUint16 = .ok (b0 + b1 * 256, { p with position := p.position + 2 }) := by
  have hle : p.position + 2 ≤ p.data.length :=
    payload_length_ge (b := [b0, b1]) (r := rest) rfl (by simpa using h) (by omega)
  have hv0 : p.data.getD p.position 0 = b0 := by
    rw [payload_getD_drop_zero, h]; rfl
  have hv1 : p.data.getD (p.position + 1) 0 = b1 := by
    rw [payload_getD_drop, h]; rfl
  unfold Payload.readUint16 Payload.capacity
  rw [if_neg (by omega), hv0, hv1]

theorem readUint32_drop {p : Payload} {b0 b1 b2 b3 : Nat} {rest : List Nat}
    (h : p.data.drop p.position = b0 :: b1 :: b2 :: b3 :: rest) :
    p.readUint32 = .ok (b0 + b1 * 256 + b2 * 65536 + b3 * 16777216,
                        { p with position := p.position + 4 }) := by
  have hle : p.position + 4 ≤ p.data.length :=
    payload_length_ge (b := [b0, b1, b2, b3]) (r := rest) rfl (by simpa using h) (by omega)
  have hv0 : p.data.getD p.position 0 = b0 := by rw [payload_getD_drop_zero, h]; rfl
  have hv1 : p.data.getD (p.position + 1) 0 = b1 := by rw [payload_getD_drop, h]; rfl
  have hv2 : p.data.getD (p.position + 2) 0 = b2 := by rw [payload_getD_drop, h]; rfl
  have hv3 : p.data.getD (p.position + 3) 0 = b3 := by rw [payload_getD_drop, h]; rfl
  unfold Payload.readUint32 Payload.capacity
  rw [if_neg (by omega), hv0, hv1, hv2, hv3]

theorem readInt32_drop {p : Payload} {b0 b1 b2 b3 : Nat} {rest : List Nat}
    (h : p.data.drop p.position = b0 :: b1 :: b2 :: b3 :: rest) :
    p.readInt32 = .ok ((if b0 + b1 * 256 + b2 * 65536 + b3 * 16777216 < 2 ^ 31
                        then ((b0 + b1 * 256 + b2 * 65536 + b3 * 16777216 : Nat) : Int)
                        else ((b0 + b1 * 256 + b2 * 65536 + b3 * 16777216 : Nat) : Int) - 2 ^ 32),
                       { p with position := p.position + 4 }) := by
  have hle : p.position + 4 ≤ p.data.length :=
    payload_length_ge (b := [b0, b1, b2, b3]) (r := rest) rfl (by simpa using h) (by omega)
  have hv0 : p.data.getD p.position 0 = b0 := by rw [payload_getD_drop_zero, h]; rfl
  have hv1 : p.data.getD (p.position + 1) 0 = b1 := by rw [payload_getD_drop, h]; rfl
  have hv2 : p.data.getD (p.position + 2) 0 = b2 := by rw [payload_getD_drop, h]; rfl
  have hv3 : p.data.getD (p.position + 3) 0 = b3 := by rw [payload_getD_drop, h]; rfl
  unfold Payload.readInt32 Payload.capacity
  rw [if_neg (by omega), hv0, hv1, hv2, hv3]

theorem readUint64_drop {p : Payload} {b0 b1 b2 b3 b4 b5 b6 b7 : Nat} {rest : List Nat}
    (h : p.data.drop p.position = b0 :: b1 :: b2 :: b3 :: b4 :: b5 :: b6 :: b7 :: rest) :
    p.readUint64 = .ok (b0 + b1 * 2 ^ 8 + b2 * 2 ^ 16 + b3 * 2 ^ 24 + b4 * 2 ^ 32
                          + b5 * 2 ^ 40 + b6 * 2 ^ 48 + b7 * 2 ^ 56,
                        { p with position := p.position + 8 }) := by
  have hle : p.position + 8 ≤ p.data.length :=
    payload_length_ge (b := [b0, b1, b2, b3, b4, b5, b6, b7]) (r := rest) rfl
      (by simpa using h) (by omega)
  have hv0 : p.data.getD p.position 0 = b0 := by rw [payload_getD_drop_zero, h]; rfl
  have hv1 : p.data.getD (p.position + 1) 0 = b1 := by rw [payload_getD_drop, h]; rfl
  have hv2 : p.data.getD (p.position + 2) 0 = b2 := by rw [payload_getD_drop, h]; rfl
  have hv3 : p.data.getD (p.position + 3) 0 = b3 := by rw [payload_getD_drop, h]; rfl
  have hv4 : p.data.getD (p.position + 4) 0 = b4 := by rw [payload_getD_drop, h]; rfl
  have hv5 : p.data.getD (p.position + 5) 0 = b5 := by rw [payload_getD_drop, h]; rfl
  have hv6 : p.data.getD (p.position + 6) 0 = b6 := by rw [payload_getD_drop, h]; rfl
  have hv7 : p.data.getD (p.position + 7) 0 = b7 := by rw [payload_getD_drop, h]; rfl
  unfold Payload.readUint64 Payload.capacity
  rw [if_neg (by omega)]
  simp only [Nat.add_zero, hv0, hv1, hv2, hv3, hv4, hv5, hv6, hv7]

theorem read_drop {p : Payload} {n : Nat} {b rest : List Nat}
    (hb : b.length = n) (hn : 0 < n)
    (h : p.data.drop p.position = b ++ rest) :
    p.read n = .ok (b, { p with position := p.position + n }) := by
  have hle : p.position + n ≤ p.data.length := payload_length_ge hb h hn
  have hv : (p.data.drop p.position).take n = b := by
    rw [h, ← hb, List.take_left]
  unfold Payload.read Payload.capacity
  rw [if_neg (by omega), hv]


theorem ipv4_decode_step (pre : Nat) (rest : List Nat)
    (h : sampleConnectToken.drop pre = 127 :: 0 :: 0 :: 1 :: 185 :: 34 :: rest) :
    decodeServerAddressIPv4 (Payload.mk sampleConnectToken pre)
      = .ok (⟨"127.0.0.1", 8889⟩, Payload.mk sampleConnectToken (pre + 6)) := by
  have h1 : (Payload.mk sampleConnectToken pre).readUint8
      = .ok (127, Payload.mk sampleConnectToken (pre + 1)) := readUint8_drop h
  have hd2 : sampleConnectToken.drop (pre + 1) = 0 :: 0 :: 1 :: 185 :: 34 :: rest :=
    list_drop_chunk (b := [127]) rfl h
  have h2 : (Payload.mk sampleConnectToken (pre + 1)).readUint8
      = .ok (0, Payload.mk sampleConnectToken (pre + 1 + 1)) := readUint8_drop hd2
  have hd3 : sampleConnectToken.drop (pre + 1 + 1) = 0 :: 1 :: 185 :: 34 :: rest :=
    list_drop_chunk (b := [0]) rfl hd2
  have h3 : (Payload.mk sampleConnectToken (pre + 1 + 1)).readUint8
      = .ok (0, Payload.mk sampleConnectToken (pre + 1 + 1 + 1)) := readUint8_drop hd3
  have hd4 : sampleConnectToken.drop (pre + 1 + 1 + 1) = 1 :: 185 :: 34 :: rest :=
    list_drop_chunk (b := [0]) rfl hd3
  have h4 : (Payload.mk sampleConnectToken (pre + 1 + 1 + 1)).readUint8
      = .ok (1, Payload.mk sampleConnectToken (pre + 1 + 1 + 1 + 1)) := readUint8_drop hd4
  have hd5 : sampleConnectToken.drop (pre + 1 + 1 + 1 + 1) = 185 :: 34 :: rest :=
    list_drop_chunk (b := [1]) rfl hd4
  have h5 : (Payload.mk sampleConnectToken (pre + 1 + 1 + 1 + 1)).readUint16
      = .ok (185 + 34 * 256, Payload.mk sampleConnectToken (pre + 1 + 1 + 1 + 1 + 2)) :=
    readUint16_drop hd5
  unfold decodeServerAddressIPv4
  rw [h1]
  simp only [Except.bind, bind]
  rw [h2]
  simp only [Except.bind, bind]
  rw [h3]
  simp only [Except.bind, bind]
  rw [h4]
  simp only [Except.bind, bind]
  rw [h5]
  simp only [Except.bind, bind]
  norm_num
  decide

theorem tok_drop_0 : sampleConnectToken.drop 0 = versionNetcodeBytes ++ tokAfterVersion := by
  rw [List.drop_zero]; rfl

theorem tok_drop_13 : sampleConnectToken.drop 13
    = 1 :: 0 :: 0 :: 0 :: 0 :: 0 :: 0 :: 0 :: tokAfterProtocol := by
  have h := list_drop_chunk (b := versionNetcodeBytes) (n := 13) rfl tok_drop_0
  norm_num at h
  exact h

theorem tok_drop_21 : sampleConnectToken.drop 21
    = 0 :: 0 :: 0 :: 0 :: 0 :: 0 :: 0 :: 0 :: tokAfterCreate := by
  have h := list_drop_chunk (b := [1, 0, 0, 0, 0, 0, 0, 0]) (n := 8) rfl tok_drop_13
  norm_num at h
  exact h

theorem tok_drop_29 : sampleConnectToken.drop 29
    = 0 :: 0 :: 0 :: 0 :: 0 :: 0 :: 0 :: 0 :: tokAfterExpire := by
  have h := list_drop_chunk (b := [0, 0, 0, 0, 0, 0, 0, 0]) (n := 8) rfl tok_drop_21
  norm_num at h
  exact h

theorem tok_drop_37 : sampleConnectToken.drop 37
    = List.replicate 24 0 ++ tokAfterNonce := by
  have h := list_drop_chunk (b := [0, 0, 0, 0, 0, 0, 0, 0]) (n := 8) rfl tok_drop_29
  norm_num at h
  exact h

theorem tok_drop_61 : sampleConnectToken.drop 61
    = List.replicate 1024 0 ++ tokAfterPrivate := by
  have h := list_drop_chunk (b := List.replicate 24 0) (n := 24)
    (List.length_replicate 24 0) tok_drop_37
  norm_num at h
  exact h

theorem tok_drop_1085 : sampleConnectToken.drop 1085
    = 10 :: 0 :: 0 :: 0 :: tokAfterTimeout := by
  have h := list_drop_chunk (b := List.replicate 1024 0) (n := 1024)
    (List.length_replicate 1024 0) tok_drop_61
  norm_num at h
  exact h

theorem tok_drop_1089 : sampleConnectToken.drop 1089
    = 1 :: 0 :: 0 :: 0 :: tokAfterNumAddr := by
  have h := list_drop_chunk (b := [10, 0, 0, 0]) (n := 4) rfl tok_drop_1085
  norm_num at h
  exact h

theorem tok_drop_1093 : sampleConnectToken.drop 1093
    = 1 :: 127 :: 0 :: 0 :: 1 :: 185 :: 34 :: tokAfterAddr := by
  have h := list_drop_chunk (b := [1, 0, 0, 0]) (n := 4) rfl tok_drop_1089
  norm_num at h
  exact h

theorem tok_drop_1094 : sampleConnectToken.drop 1094
    = 127 :: 0 :: 0 :: 1 :: 185 :: 34 :: tokAfterAddr := by
  have h := list_drop_chunk (b := [1]) (n := 1) rfl tok_drop_1093
  norm_num at h
  exact h

theorem tok_drop_1100 : sampleConnectToken.drop 1100
    = List.replicate 32 0 ++ tokAfterKey1 := by
  have h := list_drop_chunk (b := [127, 0, 0, 1, 185, 34]) (n := 6) rfl tok_drop_1094
  norm_num at h
  exact h

theorem tok_drop_1132 : sampleConnectToken.drop 1132
    = List.replicate 32 0 ++ tokAfterKeys := by
  have h := list_drop_chunk (b := List.replicate 32 0) (n := 32)
    (List.length_replicate 32 0) tok_drop_1100
  norm_num at h
  exact h

theorem except_bind_ok {α β : Type} (a : α) (f : α → Except String β) :
    (Except.ok a : Except String α) >>= f = f a := rfl

theorem sample_decode_addresses :
    decodeServerAddresses (Payload.mk sampleConnectToken 1089)
      = .ok ([⟨"127.0.0.1", 8889⟩], Payload.mk sampleConnectToken 1100) := by
  have h32 : (Payload.mk sampleConnectToken 1089).readUint32
      = .ok (1, Payload.mk sampleConnectToken 1093) := by
    have h := readUint32_drop (p := Payload.mk sampleConnectToken 1089) tok_drop_1089
    simp only [Nat.reduceAdd, Nat.reduceMul] at h
    exact h
  have ht : (Payload.mk sampleConnectToken 1093).readUint8
      = .ok (1, Payload.mk sampleConnectToken 1094) := by
    have h := readUint8_drop (p := Payload.mk sampleConnectToken 1093) tok_drop_1093
    simp only [Nat.reduceAdd] at h
    exact h
  have haddr : decodeServerAddressIPv4 (Payload.mk sampleConnectToken 1094)
      = .ok (⟨"127.0.0.1", 8889⟩, Payload.mk sampleConnectToken 1100) := by
    have h := ipv4_decode_step 1094 tokAfterAddr tok_drop_1094
    simp only [Nat.reduceAdd] at h
    exact h
  unfold decodeServerAddresses
  rw [h32, except_bind_ok]
  dsimp only
  show decodeServerAddressesLoop (0 + 1) (Payload.mk sampleConnectToken 1093) [] = _
  rw [decodeServerAddressesLoop]
  rw [ht, except_bind_ok]
  dsimp only
  rw [show POMELO_ADDRESS_IPV4 = 1 from rfl, if_pos (rfl : (1 : Nat) = 1)]
  rw [haddr, except_bind_ok]
  dsimp only
  rfl

theorem sample_read_nonce :
    (Payload.mk sampleConnectToken 37).read POMELO_CONNECT_TOKEN_NONCE_BYTES
      = .ok (List.replicate 24 0, Payload.mk sampleConnectToken 61) := by
  have h := read_drop (n := 24) (List.length_replicate 24 0) (by omega)
    (p := Payload.mk sampleConnectToken 37) tok_drop_37
  simp only [Nat.reduceAdd] at h
  exact h

theorem sample_read_private :
    (Payload.mk sampleConnectToken 61).read POMELO_ENCRYPTED_PRIVATE_CONNECT_TOKEN_BYTES
      = .ok (List.replicate 1024 0, Payload.mk sampleConnectToken 1085) := by
  have h := read_drop (n := 1024) (List.length_replicate 1024 0) (by omega)
    (p := Payload.mk sampleConnectToken 61) tok_drop_61
  simp only [Nat.reduceAdd] at h
  exact h

theorem sample_read_key1 :
    (Payload.mk sampleConnectToken 1100).read POMELO_KEY_BYTES
      = .ok (List.replicate 32 0, Payload.mk sampleConnectToken 1132) := by
  have h := read_drop (n := 32) (List.length_replicate 32 0) (by omega)
    (p := Payload.mk sampleConnectToken 1100) tok_drop_1100
  simp only [Nat.reduceAdd] at h
  exact h

theorem sample_read_key2 :
    (Payload.mk sampleConnectToken 1132).read POMELO_KEY_BYTES
      = .ok (List.replicate 32 0, Payload.mk sampleConnectToken 1164) := by
  have h := read_drop (n := 32) (List.length_replicate 32 0) (by omega)
    (p := Payload.mk sampleConnectToken 1132) tok_drop_1132
  simp only [Nat.reduceAdd] at h
  exact h

theorem sample_read_protocol :
    (Payload.mk sampleConnectToken 13).readUint64
      = .ok (1, Payload.mk sampleConnectToken 21) := by
  have h := readUint64_drop (p := Payload.mk sampleConnectToken 13) tok_drop_13
  simp only [Nat.reducePow, Nat.reduceMul, Nat.reduceAdd] at h
  exact h

theorem sample_read_create :
    (Payload.mk sampleConnectToken 21).readUint64
      = .ok (0, Payload.mk sampleConnectToken 29) := by
  have h := readUint64_drop (p := Payload.mk sampleConnectToken 21) tok_drop_21
  simp only [Nat.reducePow, Nat.reduceMul, Nat.reduceAdd] at h
  exact h

theorem sample_read_expire :
    (Payload.mk sampleConnectToken 29).readUint64
      = .ok (0, Payload.mk sampleConnectToken 37) := by
  have h := readUint64_drop (p := Payload.mk sampleConnectToken 29) tok_drop_29
  simp only [Nat.reducePow, Nat.reduceMul, Nat.reduceAdd] at h
  exact h

theorem sample_read_timeout :
    (Payload.mk sampleConnectToken 1085).readInt32
      = .ok ((10 : Int), Payload.mk sampleConnectToken 1089) := by
  have h := readInt32_drop (p := Payload.mk sampleConnectToken 1085) tok_drop_1085
  norm_num at h
  exact h

theorem token_decode_minimal_calc :
    decodeTokenPublic sampleConnectToken
      = Except.ok
          { versionInfo := "netcode 1.02", protocolID := 1,
            createTimestamp := 0, expireTimestamp := 0,
            connectTokenNonce := List.replicate 24 0, timeout := 10,
            encryptedPrivateConnectTokenData := List.replicate 1024 0,
            serverAddresses := [⟨"127.0.0.1", 8889⟩],
            clientToServerKey := List.replicate 32 0,
            serverToClientKey := List.replicate 32 0 } := by
  unfold decodeTokenPublic
  dsimp only
  rw [show Payload.readString (Payload.mk sampleConnectToken 0)
        = ("netcode 1.02", Payload.mk sampleConnectToken 13)
      from readString_version tokAfterVersion]
  dsimp only
  rw [sample_read_protocol, except_bind_ok]
  dsimp only
  rw [sample_read_create, except_bind_ok]
  dsimp only
  rw [sample_read_expire, except_bind_ok]
  dsimp only
  rw [sample_read_nonce, except_bind_ok]
  dsimp only
  rw [sample_read_private, except_bind_ok]
  dsimp only
  rw [sample_read_timeout, except_bind_ok]
  dsimp only
  rw [sample_decode_addresses, except_bind_ok]
  dsimp only
  rw [sample_read_key1, except_bind_ok]
  dsimp only
  rw [sample_read_key2, except_bind_ok]

/-- C1: the claim asserts that for every v in [0, 2^64) the packed-u64
round trip through `calcPackedUint64Bytes` is the identity.  The code
violates this: for v = 2^56 the calculator tests mask 0xFF000000000000
(bits 48..55) instead of the top byte, returns 7, and the 7-byte round
trip yields 0, not 2^56.  This theorem evaluates the code at the failing
input. -/
theorem packed_roundtrip_fails_at_two_pow_56 :
    Payload.calcPackedUint64Bytes (2 ^ 56) = 7 ∧
    packedRoundTrip (2 ^ 56) = .ok 0 ∧
    (2 ^ 56 : Nat) ≠ 0 ∧ (2 ^ 56 : Nat) < 2 ^ 64 := by
  refine ⟨rfl, rfl, ?_, ?_⟩ <;> norm_num

/-- C7: the claim asserts that `readString` leaves the position at
`zeroIndex + 1`.  The source instead executes
`position += zeroIndex + 1` with the absolute zero index, so from
position 2 on the buffer [65, 0, 66, 0] (terminator at absolute index 3)
the final position is 2 + 3 + 1 = 6, not 3 + 1 = 4.  The returned string
is still the decoded bytes [position, zeroIndex).  This theorem evaluates
the code at the failing input. -/
theorem readString_position_overshoots :
    (Payload.readString (Payload.mk [65, 0, 66, 0] 2)).1 = "B" ∧
    (Payload.readString (Payload.mk [65, 0, 66, 0] 2)).2.position = 6 ∧
    Payload.findZero (Payload.mk [65, 0, 66, 0] 2) = some 3 ∧
    (6 : Nat) ≠ 3 + 1 := by
  refine ⟨rfl, rfl, rfl, by norm_num⟩

/-- C8: decoding the concrete 2048-byte connect token with version
"netcode 1.02\x00", protocol id 1, timeout 10 and a single IPv4 entry
127.0.0.1:8889 yields exactly one server address with host "127.0.0.1"
and port 8889, and a timeout field equal to 10. -/
theorem token_decode_minimal :
    sampleConnectToken.length = 2048 ∧
    ∃ info, decodeTokenPublic sampleConnectToken = Except.ok info ∧
      info.serverAddresses = [⟨"127.0.0.1", 8889⟩] ∧
      info.timeout = 10 := by
  exact ⟨sampleConnectToken_length, _, token_decode_minimal_calc, rfl, rfl⟩

/-- Default maximum number of elements of a pool (source constant
`DEFAULT_POOL_MAX_ELEMENTS`). -/
def DEFAULT_POOL_MAX_ELEMENTS : Nat := 100

/-- State of a `Pool` (src/unnamed/part_000): the backing JavaScript array
(`none` entries are holes/undefined slots) and the current available
index, which starts at `-1`.  JavaScript arrays grow when assigned past
their length, which `jsArraySet` models. -/
structure Pool (α : Type) where
  elements : List (Option α)
  index : Int

/-- Model of a JavaScript array read `l[i]`: `undefined` (`none`) for a
negative or out-of-range index or a hole. -/
def jsArrayGet {α : Type} (l : List (Option α)) (i : Int) : Option α :=
  if i < 0 then none else (l.get? i.toNat).join

/-- Model of a JavaScript array write `l[i] = v`: in-place set when
`i < l.length`, otherwise the array grows with holes up to index `i`. -/
def jsArraySet {α : Type} (l : List (Option α)) (i : Nat) (v : α) : List (Option α) :=
  if i < l.length then l.set i (some v)
  else l ++ List.replicate (i - l.length) none ++ [some v]

/-- Model of the `Pool` constructor: `new Array(maxElements)` is an array
of `maxElements` holes, and `index = -1`. -/
def Pool.new (α : Type) (maxElements : Nat) : Pool α :=
  ⟨List.replicate maxElements none, -1⟩

/-- Result of `Pool.acquire`: either the abstract `create` factory was
invoked, or the top slot (possibly a hole) was popped. -/
inductive AcquireResult (α : Type) where
  | created (a : α)
  | popped (a : Option α)
  deriving DecidableEq

/-- Model of `Pool.acquire`: when `index < 0` invoke `create`, otherwise
return `elements[index]` and decrement the index. -/
def Pool.acquire {α : Type} (create : Unit → α) (p : Pool α) :
    AcquireResult α × Pool α :=
  if p.index < 0 then (.created (create ()), p)
  else (.popped (jsArrayGet p.elements p.index), { p with index := p.index - 1 })

/-- Model of `Pool.release`: when `index == elements.length` the element
is destroyed (returned in the second component) and discarded; otherwise
it is stored at `++index`. -/
def Pool.release {α : Type} (p : Pool α) (element : α) : Pool α × Option α :=
  if p.index = (p.elements.length : Int) then (p, some element)
  else ({ elements := jsArraySet p.elements (p.index + 1).toNat element,
          index := p.index + 1 }, none)

/-- Two consecutive releases into a fresh pool of capacity 1: the final
pool together with the two destroy results. -/
def poolCap1TwoReleases : Pool Nat × Option Nat × Option Nat :=
  let p0 := Pool.new Nat 1
  let r1 := p0.release 7
  let r2 := r1.1.release 8
  (r2.1, r1.2, r2.2)

/-- C3: the claim asserts `-1 ≤ top < cap` after any call sequence and
that a release on a full pool (`top = cap - 1`) destroys the element and
does not store it.  The code's full-pool check compares `index` with
`elements.length`, which is never reached because the JavaScript array
grows on the out-of-bounds store, so the second release into a capacity-1
pool stores the element, grows the array to length 2, raises `top` to 1
(violating `top < 1`), and never invokes `destroy`.  This theorem
evaluates the code on that trace. -/
theorem pool_release_full_overflows :
    poolCap1TwoReleases.1.index = 1 ∧
    ¬ poolCap1TwoReleases.1.index < 1 ∧
    poolCap1TwoReleases.2.1 = none ∧
    poolCap1TwoReleases.2.2 = none ∧
    poolCap1TwoReleases.1.elements.length = 2 := by
  refine ⟨rfl, by decide, rfl, rfl, rfl⟩

/-- Connection record of a signal (`SignalConnectionImpl`): the doubly
linked pointers (connection ids into the arena), whether `list` is the
signal's list (`linked`, modelling `connection.list === this`), and the
one-shot flag. -/
structure SigConn where
  next : Option Nat
  prev : Option Nat
  linked : Bool
  once : Bool
  deriving DecidableEq

/-- State of a `Signal` (src/src/utils/signal.ts): the arena of all
connection records ever created (ids in creation order) and the
head/tail of the doubly linked list. -/
structure SignalState where
  conns : List SigConn
  head : Option Nat
  tail : Option Nat
  deriving DecidableEq

/-- Signal with no connections. -/
def SignalState.empty : SignalState := ⟨[], none, none⟩

/-- Update one connection record in the arena (no-op on a bad id). -/
def SignalState.modifyConn (s : SignalState) (i : Nat) (f : SigConn → SigConn) : SignalState :=
  match s.conns.get? i with
  | none => s
  | some c => { s with conns := s.conns.set i (f c) }

/-- Model of `Signal.connect` / `Signal.once`: create a fresh connection
(`once` as given) and link it at the tail
(`SignalConnectionList.link`). -/
def SignalState.connect (s : SignalState) (once : Bool) : SignalState × Nat :=
  let i := s.conns.length
  match s.head with
  | none =>
    ({ conns := s.conns ++ [⟨none, none, true, once⟩], head := some i, tail := some i }, i)
  | some _ =>
    let conns := s.conns ++ [⟨none, s.tail, true, once⟩]
    let conns :=
      match s.tail with
      | some t =>
        match conns.get? t with
        | some ct => conns.set t { ct with next := some i }
        | none => conns
      | none => conns
    ({ conns := conns, head := s.head, tail := some i }, i)

/-- Model of `SignalConnectionList.unlink`: no-op unless the connection
belongs to this list; otherwise splice it out of the head/tail/middle
and clear its `list`, `next` and `prev` fields. -/
def SignalState.unlink (s : SignalState) (i : Nat) : SignalState :=
  match s.conns.get? i with
  | none => s
  | some c =>
    if ¬ c.linked then s
    else
      let s1 :=
        if s.head = some i then
          let s2 := { s with head := c.next }
          match c.next with
          | some j => s2.modifyConn j (fun cj => { cj with prev := none })
          | none => { s2 with tail := none }
        else if s.tail = some i then
          let s2 := { s with tail := c.prev }
          match c.prev with
          | some j => s2.modifyConn j (fun cj => { cj with next := none })
          | none => s2
        else
          match c.prev, c.next with
          | some pj, some nj =>
            (s.modifyConn pj (fun cp => { cp with next := c.next })).modifyConn nj
              (fun cn => { cn with prev := c.prev })
          | _, _ => s
      s1.modifyConn i (fun cc => { cc with linked := false, next := none, prev := none })

/-- Model of `SignalConnectionImpl.disconnect`: `this.list?.unlink(this)`. -/
def SignalState.disconnect (s : SignalState) (i : Nat) : SignalState :=
  s.unlink i

/-- Model of `SignalConnectionImpl.emit`: invoke the callback (recorded by
appending the connection id to the fired list), then self-disconnect when
the connection is a one-shot.  Callbacks themselves are modelled as not
touching the signal. -/
def SignalState.connEmit (s : SignalState) (i : Nat) (fired : List Nat) :
    SignalState × List Nat :=
  let fired1 := fired ++ [i]
  match s.conns.get? i with
  | none => (s, fired1)
  | some c => if c.once then (s.disconnect i, fired1) else (s, fired1)

/-- Traversal loop of `Signal.emit`: invoke the current connection, THEN
read its `next` pointer from the updated state (`connection =
connection.next` runs after `connection.emit(...)` in the source).  The
fuel argument bounds the traversal; it is chosen large enough for every
state considered. -/
def SignalState.emitLoop : Nat → SignalState → Option Nat → List Nat → SignalState × List Nat
  | 0, s, _, fired => (s, fired)
  | _ + 1, s, none, fired => (s, fired)
  | fuel + 1, s, some i, fired =>
    let r := s.connEmit i fired
    let nxt := (r.1.conns.get? i).bind (fun c => c.next)
    SignalState.emitLoop fuel r.1 nxt r.2

/-- Model of `Signal.emit`: traverse from the head. -/
def SignalState.signalEmit (s : SignalState) : SignalState × List Nat :=
  SignalState.emitLoop (s.conns.length + 1) s s.head []

/-- Signal with a one-shot connection (id 0) registered before a
persistent connection (id 1). -/
def sigOnceThenPersistent : SignalState :=
  ((SignalState.empty.connect true).1.connect false).1

/-- C2: the claim asserts that emit invokes every registered callback in
FIFO order even when a callback disconnects its own connection (in
particular a one-shot), because the next pointer is captured before
invocation.  In the source the next pointer is read AFTER
`connection.emit(...)` returns, and `unlink` nulls `next`, so a one-shot
halts the traversal: with a one-shot registered before a persistent
connection, emit fires only the one-shot.  This theorem evaluates the
code on that state. -/
theorem signal_emit_stops_after_self_disconnect :
    sigOnceThenPersistent.conns.length = 2 ∧
    sigOnceThenPersistent.signalEmit.2 = [0] ∧
    sigOnceThenPersistent.signalEmit.2 ≠ [0, 1] := by
  refine ⟨rfl, rfl, by decide⟩

/-- Result of `SampleSet.calc`. -/
structure SampleSetResult where
  mean : Int
  variance : Int
  deriving DecidableEq

/-- State of a `SampleSet` (src/src/utils/sampling.ts): the ring of
values, the running sum and sum of squares, the write index and the
initialized flag.  `size` is the read-only `size` field (a bigint in the
source). -/
structure SampleSet where
  initialized : Bool
  index : Nat
  values : List Int
  sum : Int
  sumSquared : Int
  size : Int
  deriving DecidableEq

/-- Model of the `SampleSet` constructor: `size` zero slots. -/
def SampleSet.new (size : Nat) : SampleSet :=
  ⟨false, 0, List.replicate size 0, 0, 0, (size : Int)⟩

/-- Model of `SampleSet.submit`: on the first submission prime every slot
with the value (`sum = value * size`, `sumSquared = sum * value`);
afterwards replace `values[index]` and update both running sums. -/
def SampleSet.submit (s : SampleSet) (value : Int) : SampleSet :=
  if ¬ s.initialized then
    { s with values := List.replicate s.values.length value,
             sum := value * s.size,
             sumSquared := value * s.size * value,
             initialized := true }
  else
    let prevVal := s.values.getD s.index 0
    { s with sum := s.sum + value - prevVal,
             sumSquared := s.sumSquared + value * value - prevVal * prevVal,
             values := s.values.set s.index value,
             index := (s.index + 1) % s.values.length }

/-- Model of `SampleSet.calc`: `mean = sum / size`,
`variance = sumSquared / size - mean * mean`, with JavaScript bigint
division (truncation toward zero, `Int.tdiv`). -/
def SampleSet.calc (s : SampleSet) : SampleSetResult :=
  ⟨Int.tdiv s.sum s.size, Int.tdiv s.sumSquared s.size - Int.tdiv s.sum s.size * Int.tdiv s.sum s.size⟩

/-- Sample-window size of the RTT calculator (source constant
`POMELO_RTT_SAMPLE_SET_SIZE`). -/
def POMELO_RTT_SAMPLE_SET_SIZE : Nat := 10

/-- Ring size of the RTT calculator (source constant
`POMELO_RTT_ENTRY_BUFFER_SIZE`). -/
def POMELO_RTT_ENTRY_BUFFER_SIZE : Nat := 20

/-- Sequence wrap bound (source constant `POMELO_RTT_MAX_SEQUENCE`). -/
def POMELO_RTT_MAX_SEQUENCE : Nat := 0xFFFF

/-- An RTT ring entry (`RTTEntry`). -/
structure RTTEntry where
  time : Int
  valid : Bool
  sequence : Nat
  deriving DecidableEq

/-- State of an `RTTCalculator` (src/unnamed/part_001): published mean and
variance, the running entry sequence, the 20 ring slots and the sample
window. -/
structure RTTCalculator where
  mean : Int
  variance : Int
  entrySequence : Nat
  entries : List RTTEntry
  sample : SampleSet
  deriving DecidableEq

/-- Model of the `RTTCalculator` constructor: 20 invalid zero entries. -/
def RTTCalculator.new : RTTCalculator :=
  ⟨0, 0, 0, List.replicate POMELO_RTT_ENTRY_BUFFER_SIZE ⟨0, false, 0⟩,
   SampleSet.new POMELO_RTT_SAMPLE_SET_SIZE⟩

/-- Model of `RTTCalculator.entry`: return slot `sequence % 20` iff it is
valid and stores this sequence, else null. -/
def RTTCalculator.entry (c : RTTCalculator) (sequence : Nat) : Option RTTEntry :=
  match c.entries.get? (sequence % POMELO_RTT_ENTRY_BUFFER_SIZE) with
  | none => none
  | some e => if ¬ e.valid ∨ e.sequence ≠ sequence then none else some e

/-- Model of `RTTCalculator.next`: take the current sequence (wrapping the
counter past 0xFFFF), overwrite slot `sequence % 20` with a fresh valid
entry and return it. -/
def RTTCalculator.next (c : RTTCalculator) (time : Int) : RTTEntry × RTTCalculator :=
  let sequence := c.entrySequence
  let es1 := c.entrySequence + 1
  let es2 := if es1 > POMELO_RTT_MAX_SEQUENCE then 0 else es1
  let e : RTTEntry := ⟨time, true, sequence⟩
  (e, { c with entrySequence := es2,
               entries := c.entries.set (sequence % POMELO_RTT_ENTRY_BUFFER_SIZE) e })

/-- Model of `RTTCalculator.submit`.  The source mutates the entry object
it is handed, which aliases a ring slot; the model identifies the entry
by its ring index.  A no-op when the slot is already invalid; otherwise
invalidate it, push `recvTime - entry.time - deltaTime` into the sample
window and republish mean and variance. -/
def RTTCalculator.submit (c : RTTCalculator) (index : Nat) (recvTime deltaTime : Int) :
    RTTCalculator :=
  match c.entries.get? index with
  | none => c
  | some e =>
    if ¬ e.valid then c
    else
      let sample := c.sample.submit (recvTime - e.time - deltaTime)
      let result := sample.calc
      { c with entries := c.entries.set index { e with valid := false },
               sample := sample, mean := result.mean, variance := result.variance }

theorem rtt_entry_claim :
    (∀ (c : RTTCalculator) (s : Nat), c.entries.length = 20 →
      c.entry s
        = (if (c.entries.getD (s % 20) ⟨0, false, 0⟩).valid
               ∧ (c.entries.getD (s % 20) ⟨0, false, 0⟩).sequence = s
           then some (c.entries.getD (s % 20) ⟨0, false, 0⟩) else none)) ∧
    (∀ (c : RTTCalculator) (t : Int), c.entries.length = 20 →
      ((c.next t).2.entry (c.next t).1.sequence) = some (c.next t).1) ∧
    (∀ (c : RTTCalculator) (t recvTime deltaTime : Int), c.entries.length = 20 →
      (((c.next t).2.submit ((c.next t).1.sequence % 20) recvTime deltaTime).entry
          (c.next t).1.sequence) = none) ∧
    (∀ (c : RTTCalculator) (t : Int) (s : Nat), c.entries.length = 20 →
      s % 20 = c.entrySequence % 20 → s ≠ c.entrySequence →
      (c.next t).2.entry s = none) := by
  refine ⟨?_, ?_, ?_, ?_⟩
  · intro c s h
    have hlt : s % 20 < c.entries.length := by rw [h]; exact Nat.mod_lt s (by omega)
    have he : c.entries.get? (s % 20) = some (c.entries.get ⟨s % 20, hlt⟩) :=
      List.get?_eq_get hlt
    have hd : c.entries.getD (s % 20) ⟨0, false, 0⟩ = c.entries.get ⟨s % 20, hlt⟩ := by
      show (c.entries.get? (s % 20)).getD _ = _
      rw [he]
      rfl
    unfold RTTCalculator.entry
    rw [show POMELO_RTT_ENTRY_BUFFER_SIZE = 20 from rfl, he, hd]
    set e := c.entries.get ⟨s % 20, hlt⟩ with hE
    by_cases h1 : e.valid <;> by_cases h2 : e.sequence = s <;> simp [h1, h2]
  · intro c t h
    unfold RTTCalculator.next RTTCalculator.entry
    dsimp only
    have hlt : c.entrySequence % POMELO_RTT_ENTRY_BUFFER_SIZE < c.entries.length := by
      rw [h]
      exact Nat.mod_lt _ (by decide)
    rw [List.get?_set_eq_of_lt _ hlt]
    simp
  · intro c t recvTime deltaTime h
    unfold RTTCalculator.next RTTCalculator.submit
    dsimp only
    have h20 : (POMELO_RTT_ENTRY_BUFFER_SIZE : Nat) = 20 := rfl
    have hlt : c.entrySequence % 20 < c.entries.length := by
      rw [h]
      exact Nat.mod_lt _ (by decide)
    rw [h20]
    rw [List.get?_set_eq_of_lt _ (h20 ▸ hlt)]
    dsimp only
    rw [if_neg (by simp)]
    unfold RTTCalculator.entry
    dsimp only
    rw [h20]
    have hlt2 : c.entrySequence % 20
        < (c.entries.set (c.entrySequence % 20)
            (⟨t, true, c.entrySequence⟩ : RTTEntry)).length := by
      rw [List.length_set, h]
      exact Nat.mod_lt _ (by decide)
    rw [List.get?_set_eq_of_lt _ hlt2]
    simp
  · intro c t s h hmod hne
    unfold RTTCalculator.next RTTCalculator.entry
    dsimp only
    rw [show (POMELO_RTT_ENTRY_BUFFER_SIZE : Nat) = 20 from rfl, hmod]
    have hlt : c.entrySequence % 20 < c.entries.length := by
      rw [h]
      exact Nat.mod_lt _ (by decide)
    rw [List.get?_set_eq_of_lt _ hlt]
    simp [Ne.symm hne]

/-- Witness for C6: the four parts of `rtt_entry_claim` instantiated on a
fresh calculator (lookup of sequence 5, next with time 7, submit with
receive time 9, and the wrap-stale lookup of sequence 20, which shares
ring slot 0 with sequence 0). -/
theorem rtt_entry_claim_witness :
    (RTTCalculator.new.entry 5
      = (if (RTTCalculator.new.entries.getD (5 % 20) ⟨0, false, 0⟩).valid
             ∧ (RTTCalculator.new.entries.getD (5 % 20) ⟨0, false, 0⟩).sequence = 5
         then some (RTTCalculator.new.entries.getD (5 % 20) ⟨0, false, 0⟩) else none)) ∧
    ((RTTCalculator.new.next 7).2.entry (RTTCalculator.new.next 7).1.sequence
      = some (RTTCalculator.new.next 7).1) ∧
    (((RTTCalculator.new.next 7).2.submit
        ((RTTCalculator.new.next 7).1.sequence % 20) 9 0).entry
        (RTTCalculator.new.next 7).1.sequence = none) ∧
    ((RTTCalculator.new.next 7).2.entry 20 = none) :=
  ⟨rtt_entry_claim.1 RTTCalculator.new 5 rfl,
   rtt_entry_claim.2.1 RTTCalculator.new 7 rfl,
   rtt_entry_claim.2.2.1 RTTCalculator.new 7 9 0 rfl,
   rtt_entry_claim.2.2.2 RTTCalculator.new 7 20 rfl rfl (by decide)⟩

/-- Size of the clock's recent-offset window (source constant
`POMELO_PROTOCOL_CLOCK_RECENT_OFFSETS_SIZE`). -/
def POMELO_PROTOCOL_CLOCK_RECENT_OFFSETS_SIZE : Nat := 10

/-- RTT-variance cap at HIGH level, (10 ms)^2 in ns^2. -/
def POMELO_TIME_CONDITION_RTT_VAR_HIGH : Int := 10000000 * 10000000

/-- RTT-variance cap at MEDIUM level, (5 ms)^2 in ns^2. -/
def POMELO_TIME_CONDITION_RTT_VAR_MEDIUM : Int := 5000000 * 5000000

/-- RTT-variance cap at LOW level, (5 ms)^2 in ns^2. -/
def POMELO_TIME_CONDITION_RTT_VAR_LOW : Int := 5000000 * 5000000

/-- Minimum number of HIGH-level pings before a downgrade. -/
def POMELO_TIME_HIGH_MIN_TIMES_OF_PING : Nat := 20

/-- RTT-variance threshold for the HIGH → MEDIUM downgrade, (5 ms)^2. -/
def POMELO_TIME_HIGH_THRESHOLD_RTT_VAR : Int := 5000000 * 5000000

/-- Minimum offset delta to adopt a sample at HIGH level, 5 ms. -/
def POMELO_TIME_HIGH_MIN_DELTA_OFFSET : Int := 5000000

/-- Recent-offset variance threshold for the MEDIUM → LOW downgrade. -/
def POMELO_TIME_MEDIUM_THRESHOLD_RECENT_OFFSETS_VAR : Int := 5000000 * 5000000

/-- Minimum offset delta to adopt a sample at MEDIUM level, 10 ms. -/
def POMELO_TIME_MEDIUM_MIN_DELTA_OFFSET : Int := 10000000

/-- Minimum delta from the recent mean to adopt it at LOW level, 10 ms. -/
def POMELO_TIME_LOW_MIN_DELTA_MEAN_RECENT_OFFSETS : Int := 10000000

/-- Model of `calcDeltaOffset`: absolute difference. -/
def calcDeltaOffset (first second : Int) : Int :=
  if first > second then first - second else second - first

/-- Sync level of the clock (`ClockSyncLevel`). -/
inductive ClockSyncLevel where
  | high
  | medium
  | low
  deriving DecidableEq

/-- State of a `Clock` (src/unnamed/part_002).  The source object holds a
reference to the session's `RTTCalculator` and reads `this.rtt.variance`
on every sync; the model passes that externally evolving variance to
`sync` as an argument. -/
structure Clock where
  level : ClockSyncLevel
  recentOffsets : SampleSet
  highSyncCount : Nat
  offset : Int
  deriving DecidableEq

/-- Model of the `Clock` constructor: HIGH level, zero count and offset,
empty 10-slot recent-offset window. -/
def Clock.new : Clock :=
  ⟨.high, SampleSet.new POMELO_PROTOCOL_CLOCK_RECENT_OFFSETS_SIZE, 0, 0⟩

/-- Model of `Clock.syncHigh`. -/
def Clock.syncHigh (c : Clock) (rttVar offset : Int) : Bool × Clock :=
  if rttVar > POMELO_TIME_CONDITION_RTT_VAR_HIGH then (false, c)
  else
    let c1 :=
      if c.highSyncCount < POMELO_TIME_HIGH_MIN_TIMES_OF_PING then
        { c with highSyncCount := c.highSyncCount + 1 }
      else if rttVar < POMELO_TIME_HIGH_THRESHOLD_RTT_VAR then
        { c with level := .medium }
      else c
    if calcDeltaOffset offset c1.offset > POMELO_TIME_HIGH_MIN_DELTA_OFFSET then
      (true, { c1 with offset := offset })
    else (false, c1)

/-- Model of `Clock.syncMedium`. -/
def Clock.syncMedium (c : Clock) (rttVar offset : Int) : Bool × Clock :=
  if rttVar > POMELO_TIME_CONDITION_RTT_VAR_MEDIUM then (false, c)
  else
    let c1 :=
      if c.recentOffsets.calc.variance < POMELO_TIME_MEDIUM_THRESHOLD_RECENT_OFFSETS_VAR then
        { c with level := .low }
      else c
    if calcDeltaOffset offset c1.offset > POMELO_TIME_MEDIUM_MIN_DELTA_OFFSET then
      (true, { c1 with offset := offset })
    else (false, c1)

/-- Model of `Clock.syncLow`. -/
def Clock.syncLow (c : Clock) (rttVar offset : Int) : Bool × Clock :=
  if rttVar > POMELO_TIME_CONDITION_RTT_VAR_LOW then (false, c)
  else
    let mean := c.recentOffsets.calc.mean
    if calcDeltaOffset mean offset > POMELO_TIME_LOW_MIN_DELTA_MEAN_RECENT_OFFSETS then
      (true, { c with offset := mean })
    else (false, c)

/-- Model of `Clock.sync`: compute the sample offset (bigint division
truncates toward zero), push it into the recent-offset window, and
dispatch on the level.  `rttVar` is the current `this.rtt.variance`. -/
def Clock.sync (c : Clock) (rttVar reqSendTime reqRecvTime resSendTime resRecvTime : Int) :
    Bool × Clock :=
  let offset := Int.tdiv ((reqRecvTime - reqSendTime) + (resSendTime - resRecvTime)) 2
  let c1 := { c with recentOffsets := c.recentOffsets.submit offset }
  match c1.level with
  | .high => c1.syncHigh rttVar offset
  | .medium => c1.syncMedium rttVar offset
  | .low => c1.syncLow rttVar offset

/-- Inputs of one `sync` call: the observed RTT variance and the four
timestamps. -/
structure SyncInput where
  rttVar : Int
  reqSendTime : Int
  reqRecvTime : Int
  resSendTime : Int
  resRecvTime : Int
  deriving DecidableEq

/-- Apply one `sync` call from a `SyncInput`. -/
def Clock.syncInput (c : Clock) (inp : SyncInput) : Bool × Clock :=
  c.sync inp.rttVar inp.reqSendTime inp.reqRecvTime inp.resSendTime inp.resRecvTime

/-- Fold a list of `sync` calls over the clock. -/
def Clock.syncRun (c : Clock) : List SyncInput → Clock
  | [] => c
  | inp :: rest => ((c.syncInput inp).2).syncRun rest

theorem clock_sync_step_high (c : Clock) (inp : SyncInput)
    (hlevel : c.level = .high) (hcount : c.highSyncCount < 20)
    (hvar : inp.rttVar < 25000000000000) :
    (c.syncInput inp).2.level = .high ∧
    (c.syncInput inp).2.highSyncCount = c.highSyncCount + 1 := by
  have hv : ¬ (inp.rttVar > POMELO_TIME_CONDITION_RTT_VAR_HIGH) := by
    simp only [POMELO_TIME_CONDITION_RTT_VAR_HIGH]
    omega
  have hc : c.highSyncCount < POMELO_TIME_HIGH_MIN_TIMES_OF_PING := by
    simpa only [POMELO_TIME_HIGH_MIN_TIMES_OF_PING] using hcount
  unfold Clock.syncInput Clock.sync
  dsimp only
  rw [hlevel]
  unfold Clock.syncHigh
  simp only [if_neg hv, if_pos hc]
  by_cases hd : calcDeltaOffset
      (Int.tdiv (inp.reqRecvTime - inp.reqSendTime + (inp.resSendTime - inp.resRecvTime)) 2)
      c.offset > POMELO_TIME_HIGH_MIN_DELTA_OFFSET <;>
    simp [hd, hlevel]

theorem clock_sync_step_downgrade (c : Clock) (inp : SyncInput)
    (hlevel : c.level = .high) (hcount : ¬ c.highSyncCount < 20)
    (hvar : inp.rttVar < 25000000000000) :
    (c.syncInput inp).2.level = .medium := by
  have hv : ¬ (inp.rttVar > POMELO_TIME_CONDITION_RTT_VAR_HIGH) := by
    simp only [POMELO_TIME_CONDITION_RTT_VAR_HIGH]
    omega
  have hc : ¬ c.highSyncCount < POMELO_TIME_HIGH_MIN_TIMES_OF_PING := by
    simpa only [POMELO_TIME_HIGH_MIN_TIMES_OF_PING] using hcount
  have hth : inp.rttVar < POMELO_TIME_HIGH_THRESHOLD_RTT_VAR := by
    simp only [POMELO_TIME_HIGH_THRESHOLD_RTT_VAR]
    omega
  unfold Clock.syncInput Clock.sync
  dsimp only
  rw [hlevel]
  unfold Clock.syncHigh
  simp only [if_neg hv, if_neg hc, if_pos hth]
  by_cases hd : calcDeltaOffset
      (Int.tdiv (inp.reqRecvTime - inp.reqSendTime + (inp.resSendTime - inp.resRecvTime)) 2)
      c.offset > POMELO_TIME_HIGH_MIN_DELTA_OFFSET <;>
    simp [hd]

theorem clock_syncRun_high (inputs : List SyncInput) (c : Clock)
    (hlevel : c.level = .high)
    (hle : c.highSyncCount + inputs.length ≤ 20)
    (hvar : ∀ inp ∈ inputs, inp.rttVar < 25000000000000) :
    (c.syncRun inputs).level = .high ∧
    (c.syncRun inputs).highSyncCount = c.highSyncCount + inputs.length := by
  induction inputs generalizing c with
  | nil => exact ⟨hlevel, rfl⟩
  | cons inp rest ih =>
    have hstep := clock_sync_step_high c inp hlevel
      (by simp only [List.length_cons] at hle; omega) (hvar inp (by simp))
    have hrec := ih (c.syncInput inp).2 hstep.1
      (by rw [hstep.2]; simp only [List.length_cons] at hle ⊢; omega)
      (fun i hi => hvar i (by simp [hi]))
    refine ⟨hrec.1, ?_⟩
    rw [show (c.syncRun (inp :: rest)) = ((c.syncInput inp).2).syncRun rest from rfl,
        hrec.2, hstep.2]
    simp only [List.length_cons]
    omega

/-- C5: from level HIGH with highSyncCount 0, twenty sync calls each
observing an RTT variance strictly below (5 ms)^2 = 25000000000000 ns^2
leave the clock at HIGH, and the next such sync call changes the level
from HIGH to MEDIUM. -/
theorem clock_high_downgrade_after_20 (c : Clock) (inputs : List SyncInput) (nxt : SyncInput)
    (hlevel : c.level = .high) (hcount : c.highSyncCount = 0)
    (hlen : inputs.length = 20)
    (hvar : ∀ inp ∈ inputs, inp.rttVar < 25000000000000)
    (hnxt : nxt.rttVar < 25000000000000) :
    (c.syncRun inputs).level = .high ∧
    ((c.syncRun inputs).syncInput nxt).2.level = .medium := by
  have hrun := clock_syncRun_high inputs c hlevel (by omega) hvar
  refine ⟨hrun.1, ?_⟩
  exact clock_sync_step_downgrade _ nxt hrun.1 (by omega) hnxt

/-- Witness for C5: a fresh clock, twenty zero-timestamp syncs with zero
variance, and one more sync downgrades to MEDIUM. -/
theorem clock_high_downgrade_after_20_witness :
    (Clock.new.syncRun (List.replicate 20 ⟨0, 0, 0, 0, 0⟩)).level = .high ∧
    ((Clock.new.syncRun (List.replicate 20 ⟨0, 0, 0, 0, 0⟩)).syncInput
        ⟨0, 0, 0, 0, 0⟩).2.level = .medium :=
  clock_high_downgrade_after_20 Clock.new (List.replicate 20 ⟨0, 0, 0, 0, 0⟩)
    ⟨0, 0, 0, 0, 0⟩ rfl rfl (by decide)
    (by intro inp hi; rw [List.eq_of_mem_replicate hi]; decide) (by decide)

/-- Channel mode (src/src/enums.ts): UNRELIABLE = 0, SEQUENCED = 1,
RELIABLE = 2. -/
inductive ChannelMode where
  | unreliable
  | sequenced
  | reliable
  deriving DecidableEq

/-- State of a `ChannelImpl` relevant to the session-level channel
operations: the mode fixed at construction (`channelMode`) and the
active flag. -/
structure ChannelState where
  mode : ChannelMode
  active : Bool
  deriving DecidableEq

/-- Channel array of a session (`SessionImpl.channels`). -/
structure SessionChannels where
  channels : List ChannelState
  deriving DecidableEq

/-- Model of a JavaScript array read `l[i]` with a possibly negative
`number` index: `undefined` (`none`) off the ends. -/
def jsIndex {α : Type} (l : List α) (i : Int) : Option α :=
  if i < 0 then none else l.get? i.toNat

/-- Model of `SessionImpl.send` composed with `ChannelImpl.send`: look up
`channels[channelIndex]`; `false` and no transmission when the slot is
undefined; otherwise the channel transmits exactly when it is active.
The second component lists the channel indices transmitted on. -/
def SessionChannels.send (s : SessionChannels) (i : Int) : Bool × List Int :=
  match jsIndex s.channels i with
  | none => (false, [])
  | some ch => if ch.active then (true, [i]) else (false, [])

/-- Model of `SessionImpl.setChannelMode`: look up the channel, return
`false` when absent and `true` otherwise, never touching any state (the
source body performs no assignment). -/
def SessionChannels.setChannelMode (s : SessionChannels) (i : Int) (mode : ChannelMode) :
    Bool × SessionChannels :=
  match jsIndex s.channels i with
  | none => (false, s)
  | some _ => (true, s)

/-- Model of `SessionImpl.getChannelMode`: UNRELIABLE when the channel is
absent, else the channel's construction-time mode. -/
def SessionChannels.getChannelMode (s : SessionChannels) (i : Int) : ChannelMode :=
  match jsIndex s.channels i with
  | none => .unreliable
  | some ch => ch.mode

theorem jsIndex_eq_none_iff {α : Type} (l : List α) (i : Int) :
    jsIndex l i = none ↔ (i < 0 ∨ (l.length : Int) ≤ i) := by
  unfold jsIndex
  by_cases h : i < 0
  · simp [h]
  · simp only [if_neg h, List.get?_eq_none]
    omega

/-- C10: sending on a channel index that holds no channel (negative or
out of range) returns false and transmits on no channel. -/
theorem send_invalid_index_returns_false (s : SessionChannels) (i : Int)
    (h : i < 0 ∨ (s.channels.length : Int) ≤ i) :
    s.send i = (false, []) := by
  unfold SessionChannels.send
  rw [(jsIndex_eq_none_iff s.channels i).mpr h]

/-- Witness for C10: a one-channel session, indices 5 and -1. -/
theorem send_invalid_index_returns_false_witness :
    (SessionChannels.mk [⟨.unreliable, true⟩]).send 5 = (false, []) ∧
    (SessionChannels.mk [⟨.unreliable, true⟩]).send (-1) = (false, []) :=
  ⟨send_invalid_index_returns_false ⟨[⟨.unreliable, true⟩]⟩ 5 (by decide),
   send_invalid_index_returns_false ⟨[⟨.unreliable, true⟩]⟩ (-1) (by decide)⟩

/-- Counterexample to C9 as stated: on a session with one channel,
`setChannelMode(1, RELIABLE)` returns `false`, not `true` (the claim
asserts `true` for every channel index). -/
theorem setChannelMode_false_out_of_range :
    (SessionChannels.mk [⟨.unreliable, true⟩]).setChannelMode 1 .reliable
      = (false, SessionChannels.mk [⟨.unreliable, true⟩]) := rfl

/-- C9 (amended): `setChannelMode` never alters the session's channels
(so every `getChannelMode` still returns the construction-time mode) and
returns `true` exactly when the index holds a channel, `false`
otherwise. -/
theorem setChannelMode_noop (s : SessionChannels) (i : Int) (mode : ChannelMode) :
    (s.setChannelMode i mode).2 = s ∧
    ((s.setChannelMode i mode).1 = true ↔ 0 ≤ i ∧ i < (s.channels.length : Int)) ∧
    (∀ j : Int, (s.setChannelMode i mode).2.getChannelMode j = s.getChannelMode j) := by
  have hiff := jsIndex_eq_none_iff s.channels i
  unfold SessionChannels.setChannelMode
  rcases hj : jsIndex s.channels i with _ | ch
  · dsimp only
    have hr := hiff.mp hj
    refine ⟨rfl, ?_, fun j => rfl⟩
    simp only [Bool.false_eq_true, false_iff]
    omega
  · dsimp only
    have hr : ¬ (i < 0 ∨ (s.channels.length : Int) ≤ i) := fun hc => by
      rw [hiff.mpr hc] at hj
      cases hj
    push_neg at hr
    refine ⟨rfl, ?_, fun j => rfl⟩
    constructor
    · intro _
      omega
    · intro _
      rfl

/-- Signals a session can emit, with `ConnectResult` values as in
src/src/enums.ts (SUCCESS = 0, DENIED = -1, TIMED_OUT = -2). -/
inductive SEmission where
  | closed
  | connectResult (r : Int)
  | message
  deriving DecidableEq

/-- Events driving the session machine (src/src/session.ts): the connect
timeout firing, any close trigger (`ws.onclose`, peer-connection close,
channel close, `disconnect()`), and the signalling/data events whose
handlers emit signals. -/
inductive SEvent where
  | timeoutFire
  | transportClosed
  | disconnectCall
  | wsConnected
  | wsAuthDenied
  | wsReady
  | allChannelsOpened
  | channelData
  deriving DecidableEq, Fintype

/-- Boolean session state relevant to signal emission: the active flag,
the connected flag, whether the connect-timeout timer is still armed
(armed at construction for a positive timeout, cleared only by
`processReady`, NOT by `close`), the two ready flags, and whether the
ping timer runs. -/
structure SessionState where
  active : Bool
  connected : Bool
  timeoutArmed : Bool
  allChannelsOpened : Bool
  readySignalReceived : Bool
  pingOn : Bool
  deriving DecidableEq, Fintype

/-- Session state right after construction with a positive token
timeout: active, not connected, timeout armed. -/
def SessionState.init : SessionState := ⟨true, false, true, false, false, false⟩

/-- Model of `SessionImpl.close`: a no-op returning no emissions when
already inactive; otherwise clear `active`, stop the ping timer (the
connect-timeout timer is NOT cleared, as in the source) and emit
`onClosed`.  Each emission is paired with the value of `active` at the
moment it is emitted — `close` sets `active := false` before emitting. -/
def SessionState.close (s : SessionState) : SessionState × List (Bool × SEmission) :=
  if s.active then
    ({ s with active := false, pingOn := false }, [(false, .closed)])
  else (s, [])

/-- Model of `processReady`: clear the connect-timeout timer. -/
def SessionState.processReady (s : SessionState) : SessionState :=
  { s with timeoutArmed := false }

/-- One step of the session machine: the handler run for an event, paired
with the signals it emits (each tagged with the active flag at emission
time).  Signalling (`ws*`) and data-channel events are deliverable only
while the session is active: the model assumes single-threaded delivery
in which `close` has already closed those transports (the timeout
callback, by contrast, stays scheduled because `close` never cancels
it). -/
def SessionState.step (s : SessionState) (e : SEvent) : SessionState × List (Bool × SEmission) :=
  match e with
  | .timeoutFire =>
    if s.timeoutArmed then
      let r := s.close
      ({ r.1 with timeoutArmed := false }, r.2 ++ [(false, .connectResult (-2))])
    else (s, [])
  | .transportClosed => s.close
  | .disconnectCall => s.close
  | .wsConnected =>
    if s.active then
      if s.connected then (s, [])
      else ({ s with connected := true }, [(true, .connectResult 0)])
    else (s, [])
  | .wsAuthDenied =>
    if s.active then (s, [(true, .connectResult (-1))]) else (s, [])
  | .wsReady =>
    if s.active then
      if s.readySignalReceived then (s, [])
      else
        let s1 := { s with readySignalReceived := true }
        if s1.allChannelsOpened && s1.readySignalReceived then (s1.processReady, [])
        else (s1, [])
    else (s, [])
  | .allChannelsOpened =>
    if s.active then
      let s1 := { s with allChannelsOpened := true, pingOn := true }
      if s1.allChannelsOpened && s1.readySignalReceived then (s1.processReady, [])
      else (s1, [])
    else (s, [])
  | .channelData =>
    if s.active then (s, [(true, .message)]) else (s, [])

/-- Run the session machine over a list of events, concatenating the
emissions in order. -/
def SessionState.run (s : SessionState) : List SEvent → SessionState × List (Bool × SEmission)
  | [] => (s, [])
  | e :: rest =>
    let r := s.step e
    let r2 := r.1.run rest
    (r2.1, r.2 ++ r2.2)

/-- Whether an emission is the `onClosed` signal. -/
def isClosedEmission (p : Bool × SEmission) : Bool :=
  match p.2 with
  | .closed => true
  | _ => false

/-- Number of `onClosed` emissions in a trace. -/
def countClosedEmissions (l : List (Bool × SEmission)) : Nat :=
  l.countP isClosedEmission

theorem step_inactive_emissions :
    ∀ (s : SessionState) (e : SEvent), ∀ p ∈ (s.step e).2,
      p.1 = false → p.2 = SEmission.closed ∨ p.2 = SEmission.connectResult (-2) := by
  decide

theorem step_closed_potential :
    ∀ (s : SessionState) (e : SEvent),
      countClosedEmissions (s.step e).2
          + (if (s.step e).1.active then 1 else 0)
        ≤ (if s.active then 1 else 0) := by
  decide

theorem run_inactive_emissions (events : List SEvent) :
    ∀ (s : SessionState), ∀ p ∈ (s.run events).2,
      p.1 = false → p.2 = SEmission.closed ∨ p.2 = SEmission.connectResult (-2) := by
  induction events with
  | nil => intro s p hp; cases hp
  | cons e rest ih =>
    intro s p hp hfalse
    rw [show (s.run (e :: rest)).2
          = (s.step e).2 ++ ((s.step e).1.run rest).2 from rfl] at hp
    rcases List.mem_append.mp hp with hmem | hmem
    · exact step_inactive_emissions s e p hmem hfalse
    · exact ih (s.step e).1 p hmem hfalse

theorem run_closed_potential (events : List SEvent) :
    ∀ (s : SessionState),
      countClosedEmissions (s.run events).2
          + (if (s.run events).1.active then 1 else 0)
        ≤ (if s.active then 1 else 0) := by
  induction events with
  | nil => intro s; simp [SessionState.run, countClosedEmissions]
  | cons e rest ih =>
    intro s
    have h1 := step_closed_potential s e
    have h2 := ih (s.step e).1
    rw [show (s.run (e :: rest)).2
          = (s.step e).2 ++ ((s.step e).1.run rest).2 from rfl,
        show (s.run (e :: rest)).1 = ((s.step e).1.run rest).1 from rfl]
    unfold countClosedEmissions at h1 h2 ⊢
    rw [List.countP_append]
    omega

/-- Counterexample to C4 as stated: when the connect timeout fires, the
handler runs `close()` (which sets `active := false` and emits the
`onClosed`) and then emits `onConnectResult(TIMED_OUT)` — a signal other
than that `onClosed` emitted after `active` became false. -/
theorem session_timeout_emits_result_after_close :
    (SessionState.init.run [SEvent.timeoutFire]).2
        = [(false, SEmission.closed), (false, SEmission.connectResult (-2))] ∧
    ¬ (∀ p ∈ (SessionState.init.run [SEvent.timeoutFire]).2,
        p.1 = false → p.2 = SEmission.closed) := by
  refine ⟨rfl, ?_⟩
  intro h
  have := h (false, SEmission.connectResult (-2)) (by decide) rfl
  cases this

/-- C4 (amended): in every event trace of a session, any signal emitted
while `active` is false is either the single `onClosed` of the close
that cleared the flag or an `onConnectResult(TIMED_OUT)` from the
connect-timeout handler (which `close` does not cancel); in particular
`onMessage` and `onConnectResult(SUCCESS/DENIED)` are never emitted
after `active` becomes false, and `onClosed` is emitted at most once. -/
theorem session_inactive_emissions (events : List SEvent) :
    (∀ p ∈ (SessionState.init.run events).2,
      p.1 = false → p.2 = SEmission.closed ∨ p.2 = SEmission.connectResult (-2)) ∧
    countClosedEmissions (SessionState.init.run events).2 ≤ 1 := by
  refine ⟨run_inactive_emissions events SessionState.init, ?_⟩
  have h := run_closed_potential events SessionState.init
  rw [show (if SessionState.init.active = true then 1 else 0) = 1 from rfl] at h
  omega

/-- Witness for C4 (amended): the timeout trace — the post-close signals
are the one onClosed and the TIMED_OUT result. -/
theorem session_inactive_emissions_witness :
    (∀ p ∈ (SessionState.init.run [SEvent.timeoutFire]).2,
      p.1 = false → p.2 = SEmission.closed ∨ p.2 = SEmission.connectResult (-2)) ∧
    countClosedEmissions (SessionState.init.run [SEvent.timeoutFire]).2 ≤ 1 :=
  session_inactive_emissions [SEvent.timeoutFire]

/-- Witness for C9 (amended): a one-channel session, valid index 0 and
invalid index 1. -/
theorem setChannelMode_noop_witness :
    ((SessionChannels.mk [⟨.sequenced, true⟩]).setChannelMode 0 .reliable).2
        = SessionChannels.mk [⟨.sequenced, true⟩] ∧
    (((SessionChannels.mk [⟨.sequenced, true⟩]).setChannelMode 0 .reliable).1 = true
        ↔ 0 ≤ (0 : Int) ∧ (0 : Int) < ((SessionChannels.mk [⟨.sequenced, true⟩]).channels.length : Int)) ∧
    (∀ j : Int, ((SessionChannels.mk [⟨.sequenced, true⟩]).setChannelMode 0 .reliable).2.getChannelMode j
        = (SessionChannels.mk [⟨.sequenced, true⟩]).getChannelMode j) :=
  setChannelMode_noop ⟨[⟨.sequenced, true⟩]⟩ 0 .reliable
